import Mathlib

/-!
Shallow embedding of the send2jsm alert-relay pipeline
(`src/send2jsm.py` and `src/active_send2jsm_ORIGIN.py`) and proofs about
the frozen claims on its specification.

Python dictionaries over string keys are embedded as ordered association
lists (`Dict`): assignment `d[k] = v` replaces the value in place when the
key is present (keeping its position, as Python 3.7+ dicts do) and appends
a new entry otherwise.
-/

/-- Ordered string-to-string mapping, the embedding of a Python `dict`. -/
abbrev Dict : Type := List (String × String)

/-- Python `d[k] = v`: replace in place if the key exists, else append. -/
def dinsert : Dict → String → String → Dict
  | [], k, v => [(k, v)]
  | (k0, v0) :: rest, k, v =>
    if k0 = k then (k0, v) :: rest else (k0, v0) :: dinsert rest k v

/-- Python `d.get(k)` / `k in d` style lookup on the ordered mapping. -/
def dlookup : Dict → String → Option String
  | [], _ => none
  | (k0, v0) :: rest, k => if k0 = k then some v0 else dlookup rest k

/-- The keys of the mapping in order. -/
def dkeys (d : Dict) : List String := d.map Prod.fst

/-- Characters treated as whitespace by Python `str.strip()`. -/
def py_space (c : Char) : Bool :=
  c = ' ' || c = '\t' || c = '\n' || c = '\r' || c = '\x0b' || c = '\x0c'

/-- Model of Python `str.strip()`: drop leading and trailing whitespace. -/
def pyStrip (s : String) : String :=
  String.mk (((s.toList.dropWhile py_space).reverse.dropWhile py_space).reverse)

/-- Model of Python `int(s)` on an already-stripped string: an optional
sign followed by one or more decimal digits; anything else raises
`ValueError`, embedded as `none`. -/
def pyInt (s : String) : Option Int :=
  let signed : Int × List Char :=
    match s.toList with
    | '+' :: rest => (1, rest)
    | '-' :: rest => (-1, rest)
    | cs => (1, cs)
  if signed.2 ≠ [] ∧ signed.2.all Char.isDigit then
    some (signed.1 * signed.2.foldl (fun a c => a * 10 + Int.ofNat (c.toNat - '0'.toNat)) 0)
  else none

/-- Model of Python `l.startswith('#')`: the first character is `#`. -/
def starts_with_hash (l : String) : Bool :=
  match l.toList with
  | c :: _ => c = '#'
  | [] => false

/-- Model of Python `s.rstrip('/')`: drop trailing slashes. -/
def pyRstripSlash (s : String) : String :=
  String.mk ((s.toList.reverse.dropWhile (fun c => c = '/')).reverse)

/-- ASCII letter test, as used by `urllib.parse` for the scheme's first
character. -/
def ascii_alpha (c : Char) : Bool :=
  ('a' ≤ c && c ≤ 'z') || ('A' ≤ c && c ≤ 'Z')

/-- Characters allowed after the first one in a URL scheme by
`urllib.parse`. -/
def scheme_char (c : Char) : Bool :=
  ascii_alpha c || c.isDigit || c = '+' || c = '-' || c = '.'

/-- Model of `urllib.parse.urlparse`, restricted to the two components the
program inspects: the scheme and the network location.  The scheme is
split off only when a colon appears after a nonempty ASCII-alphabetic-led
run of scheme characters; the netloc is read only when the remainder
starts with `//`, up to the next `/`, `?` or `#`. -/
def pyUrlparse (url : String) : String × String :=
  let cs := url.toList
  let pre := cs.takeWhile (fun c => c ≠ ':')
  let schemeOk : Bool :=
    decide (pre.length < cs.length) &&
      (match pre with
       | [] => false
       | c :: rest => ascii_alpha c && rest.all scheme_char)
  let split : List Char × List Char :=
    if schemeOk then (pre.map Char.toLower, cs.drop (pre.length + 1)) else ([], cs)
  let netloc : List Char :=
    match split.2 with
    | '/' :: '/' :: r => r.takeWhile (fun c => c ≠ '/' && c ≠ '?' && c ≠ '#')
    | _ => []
  (String.mk split.1, String.mk netloc)

/-- The single error kind of the pipeline: every configuration problem is
raised (or re-raised) as `ConfigurationError` in `send2jsm.py`. -/
inductive PipelineErr where
  | configurationError
  deriving DecidableEq

/-- `DEFAULT_CONFIG` from `send2jsm.py` lines 23-34, in source order. -/
def DEFAULT_CONFIG : Dict :=
  [("apiKey", ""),
   ("jsm.api.url", "https://api.atlassian.com"),
   ("zabbix2jsm.logger", "warning"),
   ("zabbix2jsm.http.proxy.enabled", "false"),
   ("zabbix2jsm.http.proxy.port", "1111"),
   ("zabbix2jsm.http.proxy.host", "localhost"),
   ("zabbix2jsm.http.proxy.protocol", "https"),
   ("zabbix2jsm.http.proxy.username", ""),
   ("zabbix2jsm.http.proxy.password", ""),
   ("timeout", "60")]

/-- `Configuration` from `send2jsm.py` lines 48-51: an API key together
with a validated, normalized base URL. -/
structure Configuration where
  api_key : String
  base_url : String
  deriving DecidableEq

/-- The parsed secondary JSON config file (`jec-config.json`): its
`apiKey` and `baseUrl` fields, each possibly absent (`data.get` with
default `''`). -/
structure JecJson where
  apiKey : Option String
  baseUrl : Option String

/-- `Configuration._validate_url` (`send2jsm.py` lines 53-62): the URL
must parse with both a scheme and a netloc, and is normalized by
stripping trailing slashes; otherwise `ConfigurationError`. -/
def validate_url (s : String) : Except PipelineErr String :=
  if (pyUrlparse s).1 = "" ∨ (pyUrlparse s).2 = "" then
    Except.error PipelineErr.configurationError
  else
    Except.ok (pyRstripSlash s)

/-- `Configuration.from_json` (`send2jsm.py` lines 64-76) applied to the
already-decoded JSON object: missing fields default to the empty string,
and URL validation happens at construction. -/
def Configuration.from_json (j : JecJson) : Except PipelineErr Configuration :=
  match validate_url (j.baseUrl.getD "") with
  | Except.ok u => Except.ok ⟨j.apiKey.getD "", u⟩
  | Except.error e => Except.error e

/-- Model of `self.logger.warning(...)` while loading config: the client
sets `self.logger = None` in `__init__` and only builds the real logger
after both config layers are loaded, so a warning issued during loading
dereferences `None` and raises `AttributeError`, which the enclosing
handler converts into a fatal `ConfigurationError`.  With a real logger
(`some ()`) the warning succeeds and processing continues. -/
def warn_or_raise (logger : Option Unit) (st : Dict × Int) : Except PipelineErr (Dict × Int) :=
  match logger with
  | none => Except.error PipelineErr.configurationError
  | some _ => Except.ok st

/-- Python `line.split('=', 1)` when it yields two parts: the text before
the first `=` and the text after it; `none` when the line has no `=`
(unpacking then raises `ValueError`). -/
def split_once_eq (l : String) : Option (String × String) :=
  let cs := l.toList
  let pre := cs.takeWhile (fun c => c ≠ '=')
  if pre.length = cs.length then none
  else some (String.mk pre, String.mk (cs.drop (pre.length + 1)))

/-- One iteration of the line loop in `JSMClient._load_config`
(`send2jsm.py` lines 93-104): strip the line, skip blanks and `#`
comments, split at the first `=`, store the stripped pair, and update the
total-time budget on the `timeout` key (floored at 1).  Both `ValueError`
paths (no `=`, non-integer timeout) reach `self.logger.warning`. -/
def load_config_line (logger : Option Unit) (st : Dict × Int) (line : String) :
    Except PipelineErr (Dict × Int) :=
  let l := pyStrip line
  if l = "" then Except.ok st
  else if starts_with_hash l then Except.ok st
  else
    match split_once_eq l with
    | none => warn_or_raise logger st
    | some (k0, v0) =>
      let k := pyStrip k0
      let v := pyStrip v0
      let cfg := dinsert st.1 k v
      if k = "timeout" then
        match pyInt v with
        | some i => Except.ok (cfg, max 1 i)
        | none => warn_or_raise logger (cfg, st.2)
      else Except.ok (cfg, st.2)

/-- `JSMClient._load_config` (`send2jsm.py` lines 90-106) over the file's
lines, threading the config mapping and the total-time budget. -/
def load_config (logger : Option Unit) (st : Dict × Int) :
    List String → Except PipelineErr (Dict × Int)
  | [] => Except.ok st
  | line :: rest =>
    match load_config_line logger st line with
    | Except.ok st2 => load_config logger st2 rest
    | Except.error e => Except.error e

/-- `send2jsm.py` lines 111-112: `if not self.config["apiKey"]` — the
JSON `apiKey` fills the effective `apiKey` only when it is still empty
after the file layer.  The key is always present, seeded by
`DEFAULT_CONFIG`, so the Python subscript is embedded as a lookup with
default. -/
def merge_key_layer (cfg : Dict) (c : Configuration) : Dict :=
  if (dlookup cfg "apiKey").getD "" = "" then dinsert cfg "apiKey" c.api_key else cfg

/-- `send2jsm.py` lines 113-114: `if self.config["jsm.api.url"] !=
jec_config.base_url` — the JSON base URL overwrites the effective API
base URL whenever it differs from the current value. -/
def merge_url_layer (cfg : Dict) (c : Configuration) : Dict :=
  if (dlookup cfg "jsm.api.url").getD "" ≠ c.base_url then
    dinsert cfg "jsm.api.url" c.base_url
  else cfg

/-- The merge step of `JSMClient._load_jec_config` (`send2jsm.py` lines
111-114): the apiKey fill followed by the base-URL overwrite. -/
def merge_jec_layer (cfg : Dict) (c : Configuration) : Dict :=
  merge_url_layer (merge_key_layer cfg c) c

/-- `JSMClient._load_jec_config` (`send2jsm.py` lines 108-116): build the
`Configuration` from the JSON file and merge it; any failure is re-raised
as `ConfigurationError`. -/
def load_jec_config (cfg : Dict) (j : JecJson) : Except PipelineErr Dict :=
  match Configuration.from_json j with
  | Except.error _ => Except.error PipelineErr.configurationError
  | Except.ok c => Except.ok (merge_jec_layer cfg c)

/-- The configuration-relevant state of a constructed `JSMClient`. -/
structure ClientState where
  config : Dict
  total_time : Int

/-- `JSMClient.__init__` (`send2jsm.py` lines 79-88) as far as
configuration goes: start from `DEFAULT_CONFIG` and a 60-second budget,
load the key=value file, then the JSON layer.  The logger is `none`
throughout, because `_setup_logging` runs only after both loads. -/
def client_init (lines : List String) (j : JecJson) : Except PipelineErr ClientState :=
  match load_config none (DEFAULT_CONFIG, 60) lines with
  | Except.error e => Except.error e
  | Except.ok (cfg, t) =>
    match load_jec_config cfg j with
    | Except.error e => Except.error e
    | Except.ok cfg2 => Except.ok ⟨cfg2, t⟩

/-- The outcome of one `session.post` call inside `JSMClient.send_data`
(`send2jsm.py` lines 214-246): either a response is returned and passes
`_validate_response` (`delivered`), or a response is returned and fails
validation with a non-2xx status or a non-JSON body (`validationFailed`),
or the call raises `Timeout`, `ConnectionError`, or any other exception. -/
inductive Outcome where
  | delivered
  | validationFailed
  | timedOut
  | connectionFailed
  | raised
  deriving DecidableEq

/-- How `send_data` ends: it returns after a validated response
(`returnedDelivered`), falls off the end of the attempt loop
(`returnedNone`), or calls `sys.exit(1)` (`exitedOne`). -/
inductive ExitKind where
  | returnedDelivered
  | returnedNone
  | exitedOne
  deriving DecidableEq

/-- The process exit status implied by each ending of `send_data`: a
normal return lets `main` finish with status 0, while `sys.exit(1)`
terminates with status 1. -/
def exit_code_of : ExitKind → Nat
  | ExitKind.returnedDelivered => 0
  | ExitKind.returnedNone => 0
  | ExitKind.exitedOne => 1

/-- The per-attempt request timeout from `send2jsm.py` line 211:
`max(1, (self.total_time / 12) * 2 * attempt)`, with Python's real-valued
division embedded in `ℚ`. -/
def timeout_for (t : Int) (n : Nat) : ℚ :=
  max 1 (((t : ℚ) / 12) * 2 * (n : ℚ))

/-- One delivery attempt as observed in the trace: its number, the
computed request timeout, and its outcome. -/
structure AttemptRec where
  number : Nat
  timeout : ℚ
  outcome : Outcome
  deriving DecidableEq

/-- The attempt loop of `JSMClient.send_data` (`send2jsm.py` lines
210-247) over the remaining attempt numbers, driven by the environment's
per-attempt outcomes.  Returns the attempts made, the number of
1-second `time.sleep(1)` pauses executed, and how the loop ended.  A
validated response returns immediately; a failed validation falls through
to the sleep even on the last attempt and the loop then simply ends; the
three exception handlers call `sys.exit(1)` on attempt 3, skipping the
sleep, and otherwise sleep and retry. -/
def send_attempts (oc : Nat → Outcome) (t : Int) :
    List Nat → List AttemptRec × Nat × ExitKind
  | [] => ([], 0, ExitKind.returnedNone)
  | n :: rest =>
    let a : AttemptRec := ⟨n, timeout_for t n, oc n⟩
    match oc n with
    | Outcome.delivered => ([a], 0, ExitKind.returnedDelivered)
    | Outcome.validationFailed =>
      let r := send_attempts oc t rest
      (a :: r.1, r.2.1 + 1, r.2.2)
    | Outcome.timedOut | Outcome.connectionFailed | Outcome.raised =>
      if n = 3 then ([a], 0, ExitKind.exitedOne)
      else
        let r := send_attempts oc t rest
        (a :: r.1, r.2.1 + 1, r.2.2)

/-- Line 198 of `send2jsm.py`: `self.parameters["apiKey"] =
self.config["apiKey"]` — the delivery stage writes the configured API key
into the alert's field mapping before posting it. -/
def send_data_params (params : Dict) (key1 : String) : Dict :=
  dinsert params "apiKey" key1

/-- The observable result of one pipeline run: the payload mapping as
posted, the delivery attempts made, the count of 1-second pauses, and the
process exit status. -/
structure ProcResult where
  payload : Dict
  attempts : List AttemptRec
  sleeps : Nat
  exit : Nat
  deriving DecidableEq

/-- `JSMClient.send_data` (`send2jsm.py` lines 194-247): raise
`ConfigurationError` (fatal, exit 1, no attempts) when the effective API
key is empty, otherwise inject the key into the parameters and run the
attempt loop for attempts 1, 2, 3. -/
def send_data (st : ClientState) (params : Dict) (oc : Nat → Outcome) : ProcResult :=
  if (dlookup st.config "apiKey").getD "" = "" then ⟨params, [], 0, 1⟩
  else
    let payload := send_data_params params ((dlookup st.config "apiKey").getD "")
    let r := send_attempts oc st.total_time [1, 2, 3]
    ⟨payload, r.1, r.2.1, exit_code_of r.2.2⟩

/-- `main` (`send2jsm.py` lines 268-291): construct the client (both
config layers), then deliver; a `ConfigurationError` anywhere is caught
and the process exits 1 without any delivery attempt. -/
def main_run (lines : List String) (j : JecJson) (params : Dict) (oc : Nat → Outcome) :
    ProcResult :=
  match client_init lines j with
  | Except.error _ => ⟨params, [], 0, 1⟩
  | Except.ok st => send_data st params oc

/-- The masking predicate shared by `send2jsm.py` line 206 and lines
280-283: `'password' in k or 'key' in k`, a case-sensitive substring
test on the key name. -/
def sensitive_key (k : String) : Bool :=
  decide (List.IsInfix ("password".toList) k.toList) ||
    decide (List.IsInfix ("key".toList) k.toList)

/-- The value as rendered in the pre-send debug log (`send2jsm.py` lines
206-207): `'*******'` for sensitive keys, the value itself otherwise. -/
def mask_value (k v : String) : String :=
  if sensitive_key k then "*******" else v

/-- The masked payload logged before sending (`send2jsm.py` lines
206-208). -/
def safe_params (params : Dict) : Dict :=
  params.map (fun kv => (kv.1, mask_value kv.1 kv.2))

/-- One configuration line of the debug dump in `main` (`send2jsm.py`
lines 280-283). -/
def config_log_line (k v : String) : String :=
  if sensitive_key k then k ++ "=*******" else k ++ "=" ++ v

/-- The fixed field-translation table of
`convert_to_send2jsm_format` (`active_send2jsm_ORIGIN.py` lines 29-46),
in source order. -/
def FIELD_MAPPING : List (String × String) :=
  [("triggerName", "eventName"),
   ("triggerId", "triggerId"),
   ("triggerStatus", "status"),
   ("triggerSeverity", "severity"),
   ("triggerDescription", "description"),
   ("triggerUrl", "url"),
   ("triggerValue", "value"),
   ("triggerHostGroupName", "hostGroup"),
   ("hostName", "hostName"),
   ("ipAddress", "ipAddress"),
   ("eventId", "eventId"),
   ("date", "date"),
   ("time", "time"),
   ("itemKey", "itemKey"),
   ("itemValue", "itemValue"),
   ("recoveryEventStatus", "recoveryStatus")]

/-- The body of the translation loop (`active_send2jsm_ORIGIN.py` lines
49-51): when the source key is present in the input, assign its value
under the target key; otherwise leave the accumulator unchanged. -/
def field_step (data : Dict) (acc : Dict) (p : String × String) : Dict :=
  match dlookup data p.1 with
  | some v => dinsert acc p.2 v
  | none => acc

/-- `convert_to_send2jsm_format` (`active_send2jsm_ORIGIN.py` lines
26-53): fold the translation loop over the fixed table, starting from an
empty mapping. -/
def convert_to_send2jsm_format (data : Dict) : Dict :=
  FIELD_MAPPING.foldl (field_step data) []

/-- Modelled from the spec: the FieldMapper contract of section 4.2 in
its own words — the translated mapping holds exactly the table entries
whose source key occurs in the input, under the translated name and with
the value unchanged.  Stated as a projection of the table through the
input. -/
def field_mapper_spec (data : Dict) : Dict :=
  FIELD_MAPPING.filterMap (fun p => (dlookup data p.1).map (fun v => (p.2, v)))

/-- Word characters of the `\w` class in the MessageParser's key regex,
read over ASCII: letters, digits and underscore. -/
def is_word_char (c : Char) : Bool :=
  c.isAlphanum || c = '_'

/-- Modelled from the spec: the MessageParser itself is not under `src/`
(section 4.1 describes it; only its consumers appear in the repository),
so its key-line test `^(\w+):\s*(.*)` is modelled here — a nonempty run
of word characters, a colon, then the remainder with leading whitespace
consumed by `\s*`. -/
def match_key_line (line : String) : Option (String × String) :=
  let cs := line.toList
  let w := cs.takeWhile is_word_char
  if w.isEmpty then none
  else
    match cs.drop w.length with
    | ':' :: rest => some (String.mk w, String.mk (rest.dropWhile py_space))
    | _ => none

/-- The captured key of a line (empty when the line does not match). -/
def key_of (l : String) : String := ((match_key_line l).getD ("", "")).1

/-- The captured remainder of a line (empty when the line does not
match). -/
def val_of (l : String) : String := ((match_key_line l).getD ("", "")).2

/-- Value lines joined by a newline, as the spec's flush step does. -/
def join_lines : List String → String
  | [] => ""
  | [v] => v
  | v :: vs => v ++ "\n" ++ join_lines vs

/-- Modelled from the spec: flushing the current field — join its
accumulated lines with newlines, trim, and assign into the mapping
(assignment, so a duplicate key overwrites). -/
def flush_into (acc : Dict) (cur : Option (String × List String)) : Dict :=
  match cur with
  | none => acc
  | some (k, vs) => dinsert acc k (pyStrip (join_lines vs))

/-- Modelled from the spec: the MessageParser scan of section 4.1 — a
matching line flushes the current field and starts a new one; a
non-matching line is appended to the current field's value lines, or
discarded when no field is open yet; the end of input flushes the last
field. -/
def parse_lines : List String → Option (String × List String) → Dict → Dict
  | [], cur, acc => flush_into acc cur
  | l :: ls, cur, acc =>
    match match_key_line l with
    | some (k, v0) => parse_lines ls (some (k, [v0])) (flush_into acc cur)
    | none =>
      match cur with
      | some (k, vs) => parse_lines ls (some (k, vs ++ [l])) acc
      | none => parse_lines ls none acc

/-- Split a character stream at newlines; splitting the empty stream
yields one empty line, as Python's `split('\n')` does. -/
def split_chars : List Char → List (List Char)
  | [] => [[]]
  | '\n' :: rest => [] :: split_chars rest
  | c :: rest =>
    match split_chars rest with
    | [] => [[c]]
    | l :: ls => (c :: l) :: ls

/-- The lines of the alert text, split at newlines. -/
def split_lines (text : String) : List String :=
  (split_chars text.toList).map String.mk

/-- Modelled from the spec: MessageParser on a whole alert text, scanned
line by line. -/
def parse_alert (text : String) : Dict :=
  parse_lines (split_lines text) none []

/-! ### Lemmas about the ordered mapping -/

theorem dlookup_dinsert_self (d : Dict) (k v : String) :
    dlookup (dinsert d k v) k = some v := by
  induction d with
  | nil => simp [dinsert, dlookup]
  | cons hd tl ih =>
    obtain ⟨k0, v0⟩ := hd
    by_cases h : k0 = k
    · simp [dinsert, dlookup, h]
    · simp [dinsert, dlookup, h, ih]

theorem dlookup_dinsert_ne (d : Dict) (k k2 v : String) (h : k2 ≠ k) :
    dlookup (dinsert d k v) k2 = dlookup d k2 := by
  induction d with
  | nil => simp [dinsert, dlookup, Ne.symm h]
  | cons hd tl ih =>
    obtain ⟨k0, v0⟩ := hd
    by_cases hk : k0 = k
    · subst hk
      simp [dinsert, dlookup, Ne.symm h]
    · simp only [dinsert, if_neg hk, dlookup]
      split <;> simp [ih]

theorem dlookup_eq_none_of_not_mem (d : Dict) (k : String) :
    k ∉ d.map Prod.fst → dlookup d k = none := by
  induction d with
  | nil => intro _; rfl
  | cons hd tl ih =>
    obtain ⟨k0, v0⟩ := hd
    intro h
    simp only [List.map_cons, List.mem_cons] at h
    push_neg at h
    simp [dlookup, Ne.symm h.1, ih h.2]

theorem dinsert_eq_append (d : Dict) (k v : String) (h : dlookup d k = none) :
    dinsert d k v = d ++ [(k, v)] := by
  induction d with
  | nil => rfl
  | cons hd tl ih =>
    obtain ⟨k0, v0⟩ := hd
    by_cases hk : k0 = k
    · simp [dlookup, hk] at h
    · simp only [dlookup, if_neg hk] at h
      simp [dinsert, hk, ih h]

theorem dlookup_append_of_none (d1 d2 : Dict) (k : String) (h : dlookup d1 k = none) :
    dlookup (d1 ++ d2) k = dlookup d2 k := by
  induction d1 with
  | nil => rfl
  | cons hd tl ih =>
    obtain ⟨k0, v0⟩ := hd
    by_cases hk : k0 = k
    · simp [dlookup, hk] at h
    · simp only [dlookup, if_neg hk] at h
      simp [dlookup, hk, ih h]

theorem dlookup_append_singleton_ne (d : Dict) (k v q : String)
    (h1 : dlookup d q = none) (h2 : q ≠ k) :
    dlookup (d ++ [(k, v)]) q = none := by
  rw [dlookup_append_of_none d [(k, v)] q h1]
  simp [dlookup, Ne.symm h2]

/-! ### The translation fold computes the spec projection -/

theorem foldl_field_step_eq (data : Dict) :
    ∀ (table : List (String × String)) (acc : Dict),
      (∀ p ∈ table, dlookup acc p.2 = none) →
      (table.map Prod.snd).Nodup →
      List.foldl (field_step data) acc table =
        acc ++ table.filterMap (fun p => (dlookup data p.1).map (fun v => (p.2, v))) := by
  intro table
  induction table with
  | nil => intro acc _ _; simp
  | cons p rest ih =>
    intro acc hnone hnodup
    obtain ⟨src, tgt⟩ := p
    simp only [List.map_cons, List.nodup_cons] at hnodup
    have hacc : dlookup acc tgt = none := hnone (src, tgt) (List.mem_cons_self _ _)
    cases hdata : dlookup data src with
    | none =>
      rw [List.foldl_cons]
      have hstep : field_step data acc (src, tgt) = acc := by simp [field_step, hdata]
      rw [hstep, ih acc (fun q hq => hnone q (List.mem_cons_of_mem _ hq)) hnodup.2]
      simp [List.filterMap_cons, hdata]
    | some v =>
      rw [List.foldl_cons]
      have hstep : field_step data acc (src, tgt) = acc ++ [(tgt, v)] := by
        simp [field_step, hdata, dinsert_eq_append acc tgt v hacc]
      rw [hstep]
      have hcond : ∀ q ∈ rest, dlookup (acc ++ [(tgt, v)]) q.2 = none := by
        intro q hq
        have h1 : dlookup acc q.2 = none := hnone q (List.mem_cons_of_mem _ hq)
        have h2 : q.2 ≠ tgt := by
          intro he
          exact hnodup.1 (he ▸ List.mem_map_of_mem Prod.snd hq)
        exact dlookup_append_singleton_ne acc tgt v q.2 h1 h2
      rw [ih _ hcond hnodup.2]
      simp [List.filterMap_cons, hdata, List.append_assoc]

/-! ### The parser on inputs whose lines all match the key pattern -/

theorem parse_lines_all_match :
    ∀ (ls : List String) (cur : Option (String × List String)) (acc : Dict),
      (∀ l ∈ ls, (match_key_line l).isSome = true) →
      ((flush_into acc cur).map Prod.fst ++ ls.map key_of).Nodup →
      parse_lines ls cur acc =
        flush_into acc cur ++ ls.map (fun l => (key_of l, pyStrip (val_of l))) := by
  intro ls
  induction ls with
  | nil => intro cur acc _ _; simp [parse_lines]
  | cons l ls ih =>
    intro cur acc hmatch hnodup
    have hl : (match_key_line l).isSome = true := hmatch l (List.mem_cons_self _ _)
    obtain ⟨⟨k, v0⟩, hkv⟩ := Option.isSome_iff_exists.mp hl
    have hkey : key_of l = k := by simp [key_of, hkv]
    have hval : val_of l = v0 := by simp [val_of, hkv]
    have hnodup2 : ((flush_into acc cur).map Prod.fst ++ (k :: ls.map key_of)).Nodup := by
      simpa [hkey] using hnodup
    rcases List.nodup_append.mp hnodup2 with ⟨h1, h2, hdisj⟩
    have hnm : k ∉ (flush_into acc cur).map Prod.fst :=
      fun hmem => hdisj hmem (List.mem_cons_self _ _)
    have hA : flush_into (flush_into acc cur) (some (k, [v0])) =
        flush_into acc cur ++ [(k, pyStrip v0)] := by
      generalize flush_into acc cur = A at hnm ⊢
      simp only [flush_into, join_lines]
      exact dinsert_eq_append _ _ _ (dlookup_eq_none_of_not_mem _ _ hnm)
    have hstep : parse_lines (l :: ls) cur acc =
        parse_lines ls (some (k, [v0])) (flush_into acc cur) := by
      simp [parse_lines, hkv]
    rw [hstep, ih (some (k, [v0])) (flush_into acc cur)
      (fun l2 hl2 => hmatch l2 (List.mem_cons_of_mem _ hl2))
      (by simpa [hA, List.append_assoc] using hnodup2)]
    simp [hA, hkey, hval, List.append_assoc]

/-! ### Claims -/

/-- Claim C1 (code bug in the source): the claim states that in every
delivery run where all three attempts fail for a retryable reason —
including a response failing validation — exactly 3 attempts are made,
each followed by a 1-second pause except the last, and the process then
terminates with a non-zero status.  Evaluating the embedded code on a run
where every attempt yields a response that fails validation (for example
an endpoint that always answers HTTP 404): 3 attempts are made, but the
code sleeps after the third attempt as well and `send_data` returns
normally, so the process exits 0 — the `attempt == 3 → sys.exit(1)` step
exists only in the three exception handlers, not in the
failed-validation branch.  On an all-exception run the behaviour is as
claimed (2 pauses, exit 1). -/
theorem c1_exhausted_validation_failures :
    (main_run ["apiKey=XX"] ⟨some "K", some "https://api.example.com"⟩ [("triggerId", "42")]
        (fun _ => Outcome.validationFailed)).attempts.length = 3 ∧
    (main_run ["apiKey=XX"] ⟨some "K", some "https://api.example.com"⟩ [("triggerId", "42")]
        (fun _ => Outcome.validationFailed)).sleeps = 3 ∧
    (main_run ["apiKey=XX"] ⟨some "K", some "https://api.example.com"⟩ [("triggerId", "42")]
        (fun _ => Outcome.validationFailed)).exit = 0 ∧
    (main_run ["apiKey=XX"] ⟨some "K", some "https://api.example.com"⟩ [("triggerId", "42")]
        (fun _ => Outcome.timedOut)).sleeps = 2 ∧
    (main_run ["apiKey=XX"] ⟨some "K", some "https://api.example.com"⟩ [("triggerId", "42")]
        (fun _ => Outcome.timedOut)).exit = 1 :=
  ⟨by decide, by decide, by decide, by decide, by decide⟩

/-- Claim C2 (code bug in the source): the claim states that a non-blank,
non-comment line without `=` is logged as invalid and skipped, never
fatal.  In the code, `_load_config` runs before `_setup_logging`, so
`self.logger` is still `None` when the `except ValueError` handler calls
`self.logger.warning(...)`; the resulting `AttributeError` is caught by
the outer handler and re-raised as a fatal `ConfigurationError`.  The
third conjunct shows the intended behaviour: with a working logger the
malformed line would indeed be skipped and loading would continue. -/
theorem c2_malformed_line_is_fatal :
    load_config none (DEFAULT_CONFIG, 60) ["invalidline"] =
      Except.error PipelineErr.configurationError ∧
    client_init ["invalidline"] ⟨some "K", some "https://api.example.com"⟩ =
      Except.error PipelineErr.configurationError ∧
    load_config (some ()) (DEFAULT_CONFIG, 60) ["invalidline"] =
      Except.ok (DEFAULT_CONFIG, 60) :=
  ⟨rfl, rfl, rfl⟩

/-- Claim C3, counterexample: the claim promises exactly *k* entries for
*k* matching lines with no continuations, but on `"a: 1\na: 2"` — two
matching key lines, no continuation lines — the parser produces a single
entry, because a duplicate key overwrites (as the spec itself states
elsewhere). -/
theorem c3_duplicate_key_counterexample :
    parse_alert "a: 1\na: 2" = [("a", "2")] ∧
    (parse_alert "a: 1\na: 2").length ≠ 2 :=
  ⟨by decide, by decide⟩

/-- Claim C3 as amended: for every alert text all of whose lines match
the key pattern (hence no continuation lines) and whose captured keys are
pairwise distinct, parsing yields exactly one entry per line, mapping
each line's word-only prefix to its trimmed remainder. -/
theorem c3_distinct_keys_parse (text : String)
    (hmatch : ∀ l ∈ split_lines text, (match_key_line l).isSome = true)
    (hnodup : ((split_lines text).map key_of).Nodup) :
    parse_alert text = (split_lines text).map (fun l => (key_of l, pyStrip (val_of l))) ∧
    (parse_alert text).length = (split_lines text).length := by
  have h := parse_lines_all_match (split_lines text) none [] hmatch
    (by simpa [flush_into] using hnodup)
  have h1 : parse_alert text =
      (split_lines text).map (fun l => (key_of l, pyStrip (val_of l))) := by
    simpa [parse_alert, flush_into] using h
  exact ⟨h1, by rw [h1]; simp⟩

/-- Witness for C3's amended theorem at a concrete two-line alert. -/
theorem c3_distinct_keys_parse_witness :
    parse_alert "triggerId: 42\nhostName: web1" =
      (split_lines "triggerId: 42\nhostName: web1").map
        (fun l => (key_of l, pyStrip (val_of l))) ∧
    (parse_alert "triggerId: 42\nhostName: web1").length =
      (split_lines "triggerId: 42\nhostName: web1").length :=
  c3_distinct_keys_parse "triggerId: 42\nhostName: web1" (by decide) (by decide)

/-- Claim C4: after the key=value file layer, merging the JSON layer
leaves `apiKey` unchanged when the file layer left it non-empty, and
fills it with the JSON file's apiKey when the file layer left it
empty. -/
theorem c4_apikey_fill_only_if_empty (lines : List String) (cfg : Dict) (t : Int)
    (c : Configuration)
    (hload : load_config none (DEFAULT_CONFIG, 60) lines = Except.ok (cfg, t)) :
    ((dlookup cfg "apiKey").getD "" ≠ "" →
      dlookup (merge_jec_layer cfg c) "apiKey" = dlookup cfg "apiKey") ∧
    ((dlookup cfg "apiKey").getD "" = "" →
      dlookup (merge_jec_layer cfg c) "apiKey" = some c.api_key) := by
  constructor
  · intro hne
    unfold merge_jec_layer
    have h1 : merge_key_layer cfg c = cfg := by
      unfold merge_key_layer
      rw [if_neg hne]
    rw [h1]
    unfold merge_url_layer
    by_cases h2 : (dlookup cfg "jsm.api.url").getD "" ≠ c.base_url
    · rw [if_pos h2]
      exact dlookup_dinsert_ne cfg "jsm.api.url" "apiKey" c.base_url (by decide)
    · rw [if_neg h2]
  · intro he
    unfold merge_jec_layer
    have h1 : merge_key_layer cfg c = dinsert cfg "apiKey" c.api_key := by
      unfold merge_key_layer
      rw [if_pos he]
    rw [h1]
    unfold merge_url_layer
    by_cases h2 :
        (dlookup (dinsert cfg "apiKey" c.api_key) "jsm.api.url").getD "" ≠ c.base_url
    · rw [if_pos h2,
        dlookup_dinsert_ne (dinsert cfg "apiKey" c.api_key) "jsm.api.url" "apiKey"
          c.base_url (by decide),
        dlookup_dinsert_self]
    · rw [if_neg h2, dlookup_dinsert_self]

/-- Witness for C4 with the file layer setting `apiKey=A` and the JSON
layer carrying apiKey `B`: the file value survives the merge. -/
theorem c4_apikey_fill_only_if_empty_witness :
    dlookup (merge_jec_layer (dinsert DEFAULT_CONFIG "apiKey" "A") ⟨"B", "https://x.example"⟩)
        "apiKey" =
      dlookup (dinsert DEFAULT_CONFIG "apiKey" "A") "apiKey" :=
  (c4_apikey_fill_only_if_empty ["apiKey=A"] (dinsert DEFAULT_CONFIG "apiKey" "A") 60
      ⟨"B", "https://x.example"⟩ rfl).1 (by decide)

/-- Claim C5: after merging the JSON layer, the effective `jsm.api.url`
always equals the JSON file's baseUrl as normalized (trailing slashes
stripped), whatever the defaults or the file layer had set: the overwrite
is unconditional, unlike the apiKey fill. -/
theorem c5_baseurl_always_overwritten (cfg : Dict) (j : JecJson) (c : Configuration)
    (hok : Configuration.from_json j = Except.ok c) :
    (dlookup (merge_jec_layer cfg c) "jsm.api.url").getD "" =
      pyRstripSlash (j.baseUrl.getD "") := by
  have hbase : c.base_url = pyRstripSlash (j.baseUrl.getD "") := by
    cases hval : validate_url (j.baseUrl.getD "") with
    | error e =>
      unfold Configuration.from_json at hok
      rw [hval] at hok
      exact absurd hok (by simp)
    | ok u =>
      have hu : u = pyRstripSlash (j.baseUrl.getD "") := by
        unfold validate_url at hval
        by_cases hcond :
            (pyUrlparse (j.baseUrl.getD "")).1 = "" ∨ (pyUrlparse (j.baseUrl.getD "")).2 = ""
        · rw [if_pos hcond] at hval
          exact absurd hval (by simp)
        · rw [if_neg hcond] at hval
          injection hval with h
          exact h.symm
      unfold Configuration.from_json at hok
      rw [hval] at hok
      injection hok with h
      subst h
      exact hu
  rw [← hbase]
  unfold merge_jec_layer merge_url_layer
  by_cases h2 : (dlookup (merge_key_layer cfg c) "jsm.api.url").getD "" ≠ c.base_url
  · rw [if_pos h2, dlookup_dinsert_self]
    rfl
  · rw [if_neg h2]
    push_neg at h2
    exact h2

/-- Witness for C5: even over an empty config mapping, the merged
effective URL is the JSON file's baseUrl with its trailing slash
stripped. -/
theorem c5_baseurl_always_overwritten_witness :
    (dlookup (merge_jec_layer [] ⟨"B", "https://x.example"⟩) "jsm.api.url").getD "" =
      pyRstripSlash "https://x.example/" :=
  c5_baseurl_always_overwritten [] ⟨some "B", some "https://x.example/"⟩
    ⟨"B", "https://x.example"⟩ rfl

/-- Claim C6: for every total timeout budget and attempt number the
per-attempt request timeout is `max(1, (budget / 12) * 2 * n)` seconds,
so it is never below 1 second, and for a 60-second budget the three
attempts get 10, 20 and 30 seconds — as also recorded in the delivery
trace of a three-attempt run. -/
theorem c6_timeout_escalation :
    (∀ (t : Int) (n : Nat), 1 ≤ timeout_for t n) ∧
    timeout_for 60 1 = 10 ∧ timeout_for 60 2 = 20 ∧ timeout_for 60 3 = 30 ∧
    (send_attempts (fun _ => Outcome.validationFailed) 60 [1, 2, 3]).1.map
        AttemptRec.timeout = [10, 20, 30] := by
  refine ⟨fun t n => le_max_left 1 _, ?_, ?_, ?_, ?_⟩ <;>
    norm_num [send_attempts, timeout_for, max_def]

/-- Claim C7, counterexample: the parsed field mapping is not left
untouched by delivery — line 198 of `send2jsm.py` writes the configured
API key into it, so the mapping that reaches the wire differs from the
parsed one. -/
theorem c7_delivery_mutates_params :
    send_data_params [("triggerId", "42")] "K1" ≠ [("triggerId", "42")] := by decide

/-- Claim C7 as amended: the delivery stage modifies exactly the
`apiKey` entry of the field mapping — it is inserted (or overwritten)
with the configured key — and every other entry is neither added,
removed, nor changed; field translation builds a fresh mapping and the
configuration merge never touches the alert mapping at all. -/
theorem c7_only_apikey_entry_changed (params : Dict) (key1 : String) :
    dlookup (send_data_params params key1) "apiKey" = some key1 ∧
    ∀ k2, k2 ≠ "apiKey" → dlookup (send_data_params params key1) k2 = dlookup params k2 := by
  constructor
  · exact dlookup_dinsert_self params "apiKey" key1
  · exact fun k2 h => dlookup_dinsert_ne params "apiKey" k2 key1 h

/-- Witness for C7's amended theorem: a non-apiKey entry is preserved and
the apiKey entry carries the configured key. -/
theorem c7_only_apikey_entry_changed_witness :
    dlookup (send_data_params [("hostName", "w1")] "K") "hostName" =
      dlookup [("hostName", "w1")] "hostName" ∧
    dlookup (send_data_params [("hostName", "w1")] "K") "apiKey" = some "K" :=
  ⟨(c7_only_apikey_entry_changed [("hostName", "w1")] "K").2 "hostName" (by decide),
   (c7_only_apikey_entry_changed [("hostName", "w1")] "K").1⟩

/-- Claim C8: in the log renderings produced before sending (the masked
payload of `send_data` and the config dump of `main`), a value is
rendered as `*******` exactly when its key contains the substring
`password` or `key` under case-sensitive matching, and every other key's
value appears verbatim. -/
theorem c8_sensitive_masking (k v : String) :
    ((List.IsInfix ("password".toList) k.toList ∨ List.IsInfix ("key".toList) k.toList) →
      mask_value k v = "*******" ∧ config_log_line k v = k ++ "=*******") ∧
    (¬(List.IsInfix ("password".toList) k.toList ∨ List.IsInfix ("key".toList) k.toList) →
      mask_value k v = v ∧ config_log_line k v = k ++ "=" ++ v) := by
  have hs : sensitive_key k = true ↔
      (List.IsInfix ("password".toList) k.toList ∨ List.IsInfix ("key".toList) k.toList) := by
    simp [sensitive_key]
  constructor
  · intro h
    have ht : sensitive_key k = true := hs.mpr h
    simp [mask_value, config_log_line, ht]
  · intro h
    have hf : sensitive_key k = false := by
      cases hsk : sensitive_key k with
      | false => rfl
      | true => exact absurd (hs.mp hsk) h
    simp [mask_value, config_log_line, hf]

/-- Witness for C8: the proxy password is masked, while `apiKey` — whose
lowercase `key` does not occur case-sensitively — is logged verbatim. -/
theorem c8_sensitive_masking_witness :
    mask_value "zabbix2jsm.http.proxy.password" "hunter2" = "*******" ∧
    mask_value "apiKey" "secret-value" = "secret-value" :=
  ⟨((c8_sensitive_masking "zabbix2jsm.http.proxy.password" "hunter2").1 (Or.inl (by decide))).1,
   ((c8_sensitive_masking "apiKey" "secret-value").2 (by decide)).1⟩

/-- Claim C9: the translation fold equals the spec's projection — the
output holds exactly the target keys whose source key occurs both in the
fixed table and in the input, bound to the input's value unchanged;
sources outside the table are dropped and table entries missing from the
input contribute nothing. -/
theorem c9_field_mapper_projection (data : Dict) :
    convert_to_send2jsm_format data = field_mapper_spec data := by
  unfold convert_to_send2jsm_format field_mapper_spec
  exact foldl_field_step_eq data FIELD_MAPPING [] (fun p _ => rfl) (by decide)

/-- Claim C10: when the JSON config's baseUrl is absent, empty, or lacks
a scheme or a host, `Configuration` construction fails with
`ConfigurationError` and the whole run aborts with exit status 1 before
any delivery attempt — for every key=value file content, even though the
built-in default base URL is valid. -/
theorem c10_json_baseurl_mandatory (j : JecJson) (lines : List String) (params : Dict)
    (oc : Nat → Outcome)
    (hbad : (pyUrlparse (j.baseUrl.getD "")).1 = "" ∨ (pyUrlparse (j.baseUrl.getD "")).2 = "") :
    Configuration.from_json j = Except.error PipelineErr.configurationError ∧
    main_run lines j params oc = ⟨params, [], 0, 1⟩ := by
  have hjson : Configuration.from_json j = Except.error PipelineErr.configurationError := by
    unfold Configuration.from_json validate_url
    rw [if_pos hbad]
  refine ⟨hjson, ?_⟩
  unfold main_run client_init
  cases hload : load_config none (DEFAULT_CONFIG, 60) lines with
  | error e => rfl
  | ok p =>
    obtain ⟨cfg, t⟩ := p
    unfold load_jec_config
    rw [hjson]

/-- Witness for C10 at a JSON object with no baseUrl field. -/
theorem c10_json_baseurl_mandatory_witness :
    Configuration.from_json ⟨some "K", none⟩ = Except.error PipelineErr.configurationError ∧
    main_run [] ⟨some "K", none⟩ [] (fun _ => Outcome.delivered) = ⟨[], [], 0, 1⟩ :=
  c10_json_baseurl_mandatory ⟨some "K", none⟩ [] [] (fun _ => Outcome.delivered) (by decide)
